import Mathlib

/-!
Shallow embedding of the LDAP connector configuration code of the guard
repository (`ldap/options.go` and the installer command that consumes it),
together with theorems checking claims of the specification about it.

The Go package defines an `Options` struct holding the directory
configuration, a flag-registration function `AddFlags` that installs
defaults, a serializer `ToArgs` turning an `Options` value back into
command-line arguments, two pure builders `newUserSearchRequest` and
`newGroupSearchRequest` producing `ldap.SearchRequest` values, and a
`Validate` method.  All of these are pure (no I/O), so they embed directly
as Lean functions on a record type.
-/

/-- Embedding of the Go struct `ldap.Options` from `ldap/options.go`.
The field `CaCertPool *x509.CertPool` is omitted: it is an opaque parsed
trust store never read by any of the embedded operations (`AddFlags`,
`ToArgs`, the search-request builders and `Validate` never touch it). -/
structure Options where
  ServerAddress : String
  ServerPort : String
  BindDN : String
  BindPassword : String
  UserSearchDN : String
  UserSearchFilter : String
  UserAttribute : String
  GroupSearchDN : String
  GroupSearchFilter : String
  GroupMemberAttribute : String
  GroupNameAttribute : String
  SkipTLSVerification : Bool
  IsSecureLDAP : Bool
  StartTLS : Bool
  CaCertFile : String
deriving DecidableEq, Repr

/-- Embedding of the struct `ldap.SearchRequest` of the go-ldap client
library, restricted to the fields the repository sets.  `Scope` and
`DerefAliases` are integer enumerations of the library. -/
structure SearchRequest where
  BaseDN : String
  Scope : Nat
  DerefAliases : Nat
  SizeLimit : Nat
  TimeLimit : Nat
  TypesOnly : Bool
  Filter : String
  Attributes : List String
deriving DecidableEq, Repr

/-- Constant `ldap.ScopeWholeSubtree` of the go-ldap library: search the
base entry and all its descendants. -/
def ScopeWholeSubtree : Nat := 2

/-- Constant `ldap.NeverDerefAliases` of the go-ldap library. -/
def NeverDerefAliases : Nat := 0

/-- Modelled from the spec: the constant `DefaultUserSearchFilter` is
referenced by `AddFlags` but defined in a file of the repository that is
not available; the spec documents its value as `(objectClass=person)`. -/
def DefaultUserSearchFilter : String := "(objectClass=person)"

/-- Modelled from the spec: the constant `DefaultUserAttribute` is
referenced by `AddFlags` but defined in a file of the repository that is
not available; the spec documents its value as `uid`. -/
def DefaultUserAttribute : String := "uid"

/-- Modelled from the spec: the constant `DefaultGroupSearchFilter` is
referenced by `AddFlags` but defined in a file of the repository that is
not available; the spec documents its value as `(objectClass=groupOfNames)`. -/
def DefaultGroupSearchFilter : String := "(objectClass=groupOfNames)"

/-- Modelled from the spec: the constant `DefaultGroupMemberAttribute` is
referenced by `AddFlags` but defined in a file of the repository that is
not available; the spec documents its value as `member`. -/
def DefaultGroupMemberAttribute : String := "member"

/-- Modelled from the spec: the constant `DefaultGroupNameAttribute` is
referenced by `AddFlags` but defined in a file of the repository that is
not available; the spec documents its value as `cn`. -/
def DefaultGroupNameAttribute : String := "cn"

/-- Embedding of `(o *Options) AddFlags(fs *pflag.FlagSet)`.  Each
`fs.StringVar(&o.F, name, def, usage)` / `fs.BoolVar` call of the pflag
library immediately stores its default value into the target field, so
registering the flags maps an `Options` value to one whose fields hold
the registered defaults.  Fields whose registered default is the current value of the field
itself (`ServerAddress`, `BindDN`, `BindPassword`,
`UserSearchDN`, `GroupSearchDN`) are unchanged. -/
def Options.AddFlags (o : Options) : Options :=
  { o with
    ServerPort := "389"
    UserSearchFilter := DefaultUserSearchFilter
    UserAttribute := DefaultUserAttribute
    GroupSearchFilter := DefaultGroupSearchFilter
    GroupMemberAttribute := DefaultGroupMemberAttribute
    GroupNameAttribute := DefaultGroupNameAttribute
    SkipTLSVerification := false
    IsSecureLDAP := false
    StartTLS := false
    CaCertFile := "" }

/-- Embedding of `(o Options) ToArgs() []string`: each field is emitted as
a `--ldap.*` argument when its guard condition holds, in source order.
The guard of the `--ldap.user-attribute` argument tests
`o.UserSearchFilter` (as the source does), and the `--ldap.ca-cert-file`
argument is the fixed string the source formats, independent of
the value of `o.CaCertFile`. -/
def Options.ToArgs (o : Options) : List String :=
  (if o.ServerAddress ≠ "" then ["--ldap.server-address=" ++ o.ServerAddress] else []) ++
  (if o.ServerPort ≠ "" then ["--ldap.server-port=" ++ o.ServerPort] else []) ++
  (if o.BindDN ≠ "" then ["--ldap.bind-dn=" ++ o.BindDN] else []) ++
  (if o.BindPassword ≠ "" then ["--ldap.bind-password=" ++ o.BindPassword] else []) ++
  (if o.UserSearchDN ≠ "" then ["--ldap.user-search-dn=" ++ o.UserSearchDN] else []) ++
  (if o.UserSearchFilter ≠ "" then ["--ldap.user-search-filter=" ++ o.UserSearchFilter] else []) ++
  (if o.UserSearchFilter ≠ "" then ["--ldap.user-attribute=" ++ o.UserAttribute] else []) ++
  (if o.GroupSearchDN ≠ "" then ["--ldap.group-search-dn=" ++ o.GroupSearchDN] else []) ++
  (if o.GroupSearchFilter ≠ "" then ["--ldap.group-search-filter=" ++ o.GroupSearchFilter] else []) ++
  (if o.GroupMemberAttribute ≠ "" then ["--ldap.group-member-attribute=" ++ o.GroupMemberAttribute] else []) ++
  (if o.GroupNameAttribute ≠ "" then ["--ldap.group-name-attribute=" ++ o.GroupNameAttribute] else []) ++
  (if o.SkipTLSVerification then ["--ldap.skip-tls-verification"] else []) ++
  (if o.IsSecureLDAP then ["--ldap.is-secure-ldap"] else []) ++
  (if o.StartTLS then ["--ldap.start-tls"] else []) ++
  (if o.CaCertFile ≠ "" then ["--ldap.ca-cert-file=/etc/guard/certs/ca.crt"] else [])

/-- Embedding of `(o *Options) newUserSearchRequest(username string)`.
The filter is `fmt.Sprintf("(&%s(%s=%s))", o.UserSearchFilter,
o.UserAttribute, username)`: plain substitution, the source applies no
escaping to `username`.  The `Attributes` field is left at its zero value
(the empty list). -/
def Options.newUserSearchRequest (o : Options) (username : String) : SearchRequest :=
  let userFilter := "(&" ++ o.UserSearchFilter ++ "(" ++ o.UserAttribute ++ "=" ++ username ++ "))"
  { BaseDN := o.UserSearchDN
    Scope := ScopeWholeSubtree
    DerefAliases := NeverDerefAliases
    SizeLimit := 2
    TimeLimit := 10
    TypesOnly := false
    Filter := userFilter
    Attributes := [] }

/-- Embedding of `(o *Options) newGroupSearchRequest(userDN string)`.
The filter is `fmt.Sprintf("(&%s(%s=%s))", o.GroupSearchFilter,
o.GroupMemberAttribute, userDN)`: plain substitution, no escaping of
`userDN`. -/
def Options.newGroupSearchRequest (o : Options) (userDN : String) : SearchRequest :=
  let groupFilter := "(&" ++ o.GroupSearchFilter ++ "(" ++ o.GroupMemberAttribute ++ "=" ++ userDN ++ "))"
  { BaseDN := o.GroupSearchDN
    Scope := ScopeWholeSubtree
    DerefAliases := NeverDerefAliases
    SizeLimit := 0
    TimeLimit := 10
    TypesOnly := false
    Filter := groupFilter
    Attributes := [o.GroupNameAttribute] }

/-- State-passing embedding of `newUserSearchRequest`: the Go method takes
the receiver by pointer, so its effect on the receiver is made explicit by
returning the final receiver state alongside the result.  The body only
reads `o`, never assigns through it, so the returned state is `o` itself. -/
def Options.newUserSearchRequestSt (o : Options) (username : String) :
    SearchRequest × Options :=
  let userFilter := "(&" ++ o.UserSearchFilter ++ "(" ++ o.UserAttribute ++ "=" ++ username ++ "))"
  ({ BaseDN := o.UserSearchDN
     Scope := ScopeWholeSubtree
     DerefAliases := NeverDerefAliases
     SizeLimit := 2
     TimeLimit := 10
     TypesOnly := false
     Filter := userFilter
     Attributes := [] }, o)

/-- State-passing embedding of `newGroupSearchRequest`, as for
`Options.newUserSearchRequestSt`. -/
def Options.newGroupSearchRequestSt (o : Options) (userDN : String) :
    SearchRequest × Options :=
  let groupFilter := "(&" ++ o.GroupSearchFilter ++ "(" ++ o.GroupMemberAttribute ++ "=" ++ userDN ++ "))"
  ({ BaseDN := o.GroupSearchDN
     Scope := ScopeWholeSubtree
     DerefAliases := NeverDerefAliases
     SizeLimit := 0
     TimeLimit := 10
     TypesOnly := false
     Filter := groupFilter
     Attributes := [o.GroupNameAttribute] }, o)

/-- Embedding of `(o *Options) Validate() []error`.  The source body is
`return nil`: the method reports no error for any configuration.  Errors
are modelled as messages, `nil` as the empty list. -/
def Options.Validate (_o : Options) : List String := []

/-- Hexadecimal digit characters, lowercase, for the escaping rules. -/
def hexDigit (n : Nat) : Char :=
  if n < 10 then Char.ofNat (48 + n) else Char.ofNat (87 + n)

/-- Escape one byte value as a backslash followed by two lowercase hex
digits, as directory-filter escaping prescribes. -/
def escByte (n : Nat) : List Char :=
  ['\\', hexDigit (n / 16 % 16), hexDigit (n % 16)]

/-- Characters the spec requires to be escaped in filter values:
backslash, `*`, `(`, `)`, NUL, and non-ASCII bytes. -/
def mustEscape (c : Char) : Bool :=
  c = '\\' || c = '*' || c = '(' || c = ')' || c.toNat = 0 || c.toNat ≥ 128

/-- Directory-filter escaping of a value, following the words of the spec
(this is the spec-side definition used to compare against what the source
actually builds; the source itself contains no escaping step). -/
def specEscapeFilter (s : String) : String :=
  ⟨(s.data.map (fun c => if mustEscape c then escByte c.toNat else [c])).flatten⟩

/-- An `Options` value with every string field empty and every boolean
false: the configuration before any flag registration or parsing. -/
def emptyOptions : Options :=
  { ServerAddress := ""
    ServerPort := ""
    BindDN := ""
    BindPassword := ""
    UserSearchDN := ""
    UserSearchFilter := ""
    UserAttribute := ""
    GroupSearchDN := ""
    GroupSearchFilter := ""
    GroupMemberAttribute := ""
    GroupNameAttribute := ""
    SkipTLSVerification := false
    IsSecureLDAP := false
    StartTLS := false
    CaCertFile := "" }

/-- The configuration obtained by registering the flags and passing none:
every setting is left at its documented default. -/
def defaultOptions : Options := emptyOptions.AddFlags

/-- Boolean test that the string `a` begins with the string `p`, computed
on the underlying character lists. -/
def argStartsWith (p a : String) : Bool := p.data.isPrefixOf a.data

/-- An `Options` value used to instantiate universally quantified theorems:
a non-empty user search filter together with an empty user attribute. -/
def sampleOpts : Options :=
  { emptyOptions with UserSearchFilter := "(objectClass=person)" }

/- Helper lemmas about `List.isPrefixOf` and `argStartsWith`. -/

theorem isPrefixOf_append_self (p s : List Char) : p.isPrefixOf (p ++ s) = true := by
  induction p with
  | nil => simp [List.isPrefixOf]
  | cons a as ih => simp [List.isPrefixOf, ih]

theorem isPrefixOf_append_false (p q s : List Char)
    (h1 : p.isPrefixOf q = false) (h2 : q.isPrefixOf p = false) :
    p.isPrefixOf (q ++ s) = false := by
  induction p generalizing q with
  | nil => simp [List.isPrefixOf] at h1
  | cons a as ih =>
    cases q with
    | nil => simp [List.isPrefixOf] at h2
    | cons b bs =>
      by_cases hab : a = b
      · subst hab
        simp only [List.cons_append, List.isPrefixOf, beq_self_eq_true,
          Bool.true_and] at h1 h2 ⊢
        exact ih bs h1 h2
      · simp [List.cons_append, List.isPrefixOf, beq_eq_false_iff_ne.mpr hab]

theorem argStartsWith_append_false (p q s : String)
    (h1 : argStartsWith p q = false) (h2 : argStartsWith q p = false) :
    argStartsWith p (q ++ s) = false := by
  unfold argStartsWith at h1 h2 ⊢
  rw [String.data_append]
  exact isPrefixOf_append_false _ _ _ h1 h2

theorem argStartsWith_append_self (p s : String) :
    argStartsWith p (p ++ s) = true := by
  unfold argStartsWith
  rw [String.data_append]
  exact isPrefixOf_append_self _ _

/-- Claim C1: the spec asserts that `newUserSearchRequest` and
`newGroupSearchRequest` escape directory metacharacters in the
substituted username / user DN.  The source performs no escaping: at the
username `*` under the default configuration, the produced user filter is
the wildcard `(&(objectClass=person)(uid=*))` and differs from the filter
built from the escaped value `\2a`; the group filter likewise substitutes
verbatim. -/
theorem ldapFilterBuiltWithoutEscaping :
    (defaultOptions.newUserSearchRequest "*").Filter = "(&(objectClass=person)(uid=*))" ∧
    specEscapeFilter "*" = "\\2a" ∧
    (defaultOptions.newUserSearchRequest "*").Filter ≠
      "(&" ++ defaultOptions.UserSearchFilter ++ "(" ++ defaultOptions.UserAttribute ++
        "=" ++ specEscapeFilter "*" ++ "))" ∧
    (defaultOptions.newGroupSearchRequest "*").Filter =
      "(&(objectClass=groupOfNames)(member=*))" := by
  refine ⟨by decide, by decide, by decide, by decide⟩

/-- Claim C2: the spec asserts `Validate()` rejects an empty server
address, an unreadable CA file, and unbalanced filters.  The source body
of `Validate` is `return nil`: it returns no error for any configuration,
in particular it accepts the all-empty configuration whose server address
is empty. -/
theorem validateIsStub :
    emptyOptions.Validate = [] ∧ emptyOptions.ServerAddress = "" ∧
    ∀ o : Options, o.Validate = [] :=
  ⟨rfl, rfl, fun _ => rfl⟩

/-- Claim C3 (counterexample): the claim states the user filter equals the
conjunction with the ESCAPED username substituted; at username `(` under
the default configuration the filter the code builds differs from that
string, since the code substitutes the raw value. -/
theorem filterNotEscapedAtParen :
    (defaultOptions.newUserSearchRequest "(").Filter ≠
      "(&" ++ defaultOptions.UserSearchFilter ++ "(" ++ defaultOptions.UserAttribute ++
        "=" ++ specEscapeFilter "(" ++ "))" := by
  decide

/-- Claim C3 (amended): for every configuration and input, the user filter
is exactly the conjunction with the RAW username substituted, and the
group filter likewise with the raw user DN. -/
theorem filterShapeRawSubstitution (o : Options) (username userDN : String) :
    (o.newUserSearchRequest username).Filter =
      "(&" ++ o.UserSearchFilter ++ "(" ++ o.UserAttribute ++ "=" ++ username ++ "))" ∧
    (o.newGroupSearchRequest userDN).Filter =
      "(&" ++ o.GroupSearchFilter ++ "(" ++ o.GroupMemberAttribute ++ "=" ++ userDN ++ "))" :=
  ⟨rfl, rfl⟩

/-- Claim C4: every user search request carries size limit 2 and every
group search request carries size limit 0 (unbounded). -/
theorem searchSizeLimits (o : Options) (username userDN : String) :
    (o.newUserSearchRequest username).SizeLimit = 2 ∧
    (o.newGroupSearchRequest userDN).SizeLimit = 0 :=
  ⟨rfl, rfl⟩

/-- Claim C5: registering the flags on any configuration installs exactly
the documented defaults for the six defaulted settings. -/
theorem registeredDefaults (o : Options) :
    o.AddFlags.UserSearchFilter = "(objectClass=person)" ∧
    o.AddFlags.UserAttribute = "uid" ∧
    o.AddFlags.GroupSearchFilter = "(objectClass=groupOfNames)" ∧
    o.AddFlags.GroupMemberAttribute = "member" ∧
    o.AddFlags.GroupNameAttribute = "cn" ∧
    o.AddFlags.ServerPort = "389" :=
  ⟨rfl, rfl, rfl, rfl, rfl, rfl⟩

/-- Claim C6: both request builders always set the whole-subtree search
scope; no other scope value is ever produced. -/
theorem searchScopeWholeSubtree (o : Options) (username userDN : String) :
    (o.newUserSearchRequest username).Scope = ScopeWholeSubtree ∧
    (o.newGroupSearchRequest userDN).Scope = ScopeWholeSubtree :=
  ⟨rfl, rfl⟩

/-- Claim C7: the request builders are pure.  The state-passing embeddings
(which thread the pointer receiver explicitly) return the receiver
unchanged, and their result component coincides with the pure builders,
so two invocations on equal configuration and input yield equal requests
and leave the configuration untouched. -/
theorem requestBuildersPure (o : Options) (username userDN : String) :
    o.newUserSearchRequestSt username = (o.newUserSearchRequest username, o) ∧
    o.newGroupSearchRequestSt userDN = (o.newGroupSearchRequest userDN, o) :=
  ⟨rfl, rfl⟩

/-- Claim C10: the group request asks for exactly the configured group
name attribute, the user request restricts no attributes, and both
requests never dereference aliases. -/
theorem requestedAttributesAndAliases (o : Options) (username userDN : String) :
    (o.newGroupSearchRequest userDN).Attributes = [o.GroupNameAttribute] ∧
    (o.newUserSearchRequest username).Attributes = [] ∧
    (o.newUserSearchRequest username).DerefAliases = NeverDerefAliases ∧
    (o.newGroupSearchRequest userDN).DerefAliases = NeverDerefAliases :=
  ⟨rfl, rfl, rfl, rfl⟩

/-- Claim C8: `ToArgs` emits an argument beginning with
`--ldap.user-attribute=` exactly when `UserSearchFilter` is non-empty
(the source gates the user-attribute argument on `UserSearchFilter`, not
on `UserAttribute`), and when it does, the emitted argument carries
whatever `UserAttribute` holds, the empty string included. -/
theorem userAttributeFlagGatedByUserSearchFilter (o : Options) :
    ((∃ a ∈ o.ToArgs, argStartsWith "--ldap.user-attribute=" a = true) ↔
      o.UserSearchFilter ≠ "") ∧
    (o.UserSearchFilter ≠ "" →
      ("--ldap.user-attribute=" ++ o.UserAttribute) ∈ o.ToArgs) := by
  have hmem : o.UserSearchFilter ≠ "" →
      ("--ldap.user-attribute=" ++ o.UserAttribute) ∈ o.ToArgs := by
    intro hne
    simp only [Options.ToArgs]
    refine List.mem_append_left _ (List.mem_append_left _ (List.mem_append_left _
      (List.mem_append_left _ (List.mem_append_left _ (List.mem_append_left _
      (List.mem_append_left _ (List.mem_append_left _ (List.mem_append_right _ ?_))))))))
    rw [if_pos hne]
    exact List.mem_singleton_self _
  refine ⟨⟨?_, fun hne => ⟨_, hmem hne, argStartsWith_append_self _ _⟩⟩, hmem⟩
  rintro ⟨a, ha, hpre⟩
  have hany : o.ToArgs.any (argStartsWith "--ldap.user-attribute=") = true :=
    List.any_eq_true.mpr ⟨a, ha, hpre⟩
  have e1 : argStartsWith "--ldap.user-attribute=" ("--ldap.server-address=" ++ o.ServerAddress) = false :=
    argStartsWith_append_false _ _ _ (by decide) (by decide)
  have e2 : argStartsWith "--ldap.user-attribute=" ("--ldap.server-port=" ++ o.ServerPort) = false :=
    argStartsWith_append_false _ _ _ (by decide) (by decide)
  have e3 : argStartsWith "--ldap.user-attribute=" ("--ldap.bind-dn=" ++ o.BindDN) = false :=
    argStartsWith_append_false _ _ _ (by decide) (by decide)
  have e4 : argStartsWith "--ldap.user-attribute=" ("--ldap.bind-password=" ++ o.BindPassword) = false :=
    argStartsWith_append_false _ _ _ (by decide) (by decide)
  have e5 : argStartsWith "--ldap.user-attribute=" ("--ldap.user-search-dn=" ++ o.UserSearchDN) = false :=
    argStartsWith_append_false _ _ _ (by decide) (by decide)
  have e6 : argStartsWith "--ldap.user-attribute=" ("--ldap.user-search-filter=" ++ o.UserSearchFilter) = false :=
    argStartsWith_append_false _ _ _ (by decide) (by decide)
  have e8 : argStartsWith "--ldap.user-attribute=" ("--ldap.group-search-dn=" ++ o.GroupSearchDN) = false :=
    argStartsWith_append_false _ _ _ (by decide) (by decide)
  have e9 : argStartsWith "--ldap.user-attribute=" ("--ldap.group-search-filter=" ++ o.GroupSearchFilter) = false :=
    argStartsWith_append_false _ _ _ (by decide) (by decide)
  have e10 : argStartsWith "--ldap.user-attribute=" ("--ldap.group-member-attribute=" ++ o.GroupMemberAttribute) = false :=
    argStartsWith_append_false _ _ _ (by decide) (by decide)
  have e11 : argStartsWith "--ldap.user-attribute=" ("--ldap.group-name-attribute=" ++ o.GroupNameAttribute) = false :=
    argStartsWith_append_false _ _ _ (by decide) (by decide)
  have e12 : argStartsWith "--ldap.user-attribute=" "--ldap.skip-tls-verification" = false := by decide
  have e13 : argStartsWith "--ldap.user-attribute=" "--ldap.is-secure-ldap" = false := by decide
  have e14 : argStartsWith "--ldap.user-attribute=" "--ldap.start-tls" = false := by decide
  have e15 : argStartsWith "--ldap.user-attribute=" "--ldap.ca-cert-file=/etc/guard/certs/ca.crt" = false := by decide
  simp only [Options.ToArgs, List.any_append,
    apply_ite (fun l => List.any l (argStartsWith "--ldap.user-attribute=")),
    List.any_cons, List.any_nil, e1, e2, e3, e4, e5, e6, e8, e9, e10, e11, e12, e13, e14, e15,
    argStartsWith_append_self, Bool.or_false, Bool.false_or, ite_self] at hany
  by_cases hc : o.UserSearchFilter = ""
  · rw [if_neg (fun h => h hc)] at hany
    cases hany
  · exact hc

/-- Witness for the theorem of claim C8 at a concrete configuration: with a
non-empty user search filter and an empty user attribute, the argument
list contains the user-attribute flag with an empty value. -/
theorem userAttributeFlagGatedByUserSearchFilter_witness :
    ("--ldap.user-attribute=" ++ sampleOpts.UserAttribute) ∈ sampleOpts.ToArgs :=
  (userAttributeFlagGatedByUserSearchFilter sampleOpts).2 (by decide)

/-- Claim C9: whenever `CaCertFile` is non-empty, the argument list holds
exactly the fixed entry `--ldap.ca-cert-file=/etc/guard/certs/ca.crt`,
independent of the configured path, and no such entry otherwise. -/
theorem caCertFlagFixedPath (o : Options) :
    o.ToArgs.filter (argStartsWith "--ldap.ca-cert-file=") =
      (if o.CaCertFile = "" then []
       else ["--ldap.ca-cert-file=/etc/guard/certs/ca.crt"]) := by
  have g1 : argStartsWith "--ldap.ca-cert-file=" ("--ldap.server-address=" ++ o.ServerAddress) = false :=
    argStartsWith_append_false _ _ _ (by decide) (by decide)
  have g2 : argStartsWith "--ldap.ca-cert-file=" ("--ldap.server-port=" ++ o.ServerPort) = false :=
    argStartsWith_append_false _ _ _ (by decide) (by decide)
  have g3 : argStartsWith "--ldap.ca-cert-file=" ("--ldap.bind-dn=" ++ o.BindDN) = false :=
    argStartsWith_append_false _ _ _ (by decide) (by decide)
  have g4 : argStartsWith "--ldap.ca-cert-file=" ("--ldap.bind-password=" ++ o.BindPassword) = false :=
    argStartsWith_append_false _ _ _ (by decide) (by decide)
  have g5 : argStartsWith "--ldap.ca-cert-file=" ("--ldap.user-search-dn=" ++ o.UserSearchDN) = false :=
    argStartsWith_append_false _ _ _ (by decide) (by decide)
  have g6 : argStartsWith "--ldap.ca-cert-file=" ("--ldap.user-search-filter=" ++ o.UserSearchFilter) = false :=
    argStartsWith_append_false _ _ _ (by decide) (by decide)
  have g7 : argStartsWith "--ldap.ca-cert-file=" ("--ldap.user-attribute=" ++ o.UserAttribute) = false :=
    argStartsWith_append_false _ _ _ (by decide) (by decide)
  have g8 : argStartsWith "--ldap.ca-cert-file=" ("--ldap.group-search-dn=" ++ o.GroupSearchDN) = false :=
    argStartsWith_append_false _ _ _ (by decide) (by decide)
  have g9 : argStartsWith "--ldap.ca-cert-file=" ("--ldap.group-search-filter=" ++ o.GroupSearchFilter) = false :=
    argStartsWith_append_false _ _ _ (by decide) (by decide)
  have g10 : argStartsWith "--ldap.ca-cert-file=" ("--ldap.group-member-attribute=" ++ o.GroupMemberAttribute) = false :=
    argStartsWith_append_false _ _ _ (by decide) (by decide)
  have g11 : argStartsWith "--ldap.ca-cert-file=" ("--ldap.group-name-attribute=" ++ o.GroupNameAttribute) = false :=
    argStartsWith_append_false _ _ _ (by decide) (by decide)
  have g12 : argStartsWith "--ldap.ca-cert-file=" "--ldap.skip-tls-verification" = false := by decide
  have g13 : argStartsWith "--ldap.ca-cert-file=" "--ldap.is-secure-ldap" = false := by decide
  have g14 : argStartsWith "--ldap.ca-cert-file=" "--ldap.start-tls" = false := by decide
  have g15 : argStartsWith "--ldap.ca-cert-file=" "--ldap.ca-cert-file=/etc/guard/certs/ca.crt" = true := by decide
  by_cases hc : o.CaCertFile = "" <;>
    simp [Options.ToArgs, List.filter_append,
      apply_ite (List.filter (argStartsWith "--ldap.ca-cert-file=")),
      g1, g2, g3, g4, g5, g6, g7, g8, g9, g10, g11, g12, g13, g14, g15, hc]
